import Mathlib

/-!
# Verification of the `crop_coefficients` crate

Shallow embedding of the crate's four source files.  Rust `f32`/`f64`
values are modelled as exact rationals (`ℚ`); the claims under study are
about branch selection, interpolation formulas, rounding and integer
arithmetic, none of which hinge on binary floating-point rounding.
`f32::powf` is an external libm function; every definition that calls it
is parameterised by a function `pow3 : ℚ → ℚ` standing for
`fun x => x.powf(0.3)`.

Rust `u16` values are modelled as `ℕ` together with explicit wrapping
arithmetic modulo 2^16 (`i64 as u16` casts always truncate; `u16`
subtraction here uses release-profile wrapping semantics — under debug
assertions an overflowing subtraction would abort instead, which diverges
from the spec in exactly the same places).  Integer division by zero
aborts in every Rust profile, so the one function that can hit it
(`crop_coefficient_gs`) returns `Except String _` with an error on a zero
divisor.  `chrono::NaiveDate` is modelled as its day number (an `ℤ`,
days since an arbitrary epoch), so that
`a.signed_duration_since(b).num_days()` is `a - b`.
-/

/-- Model of `f32::round`: nearest integer, ties rounded away from zero. -/
def rustRound (x : ℚ) : ℚ :=
  if x < 0 then -((⌊-x + 1/2⌋ : ℤ) : ℚ) else ((⌊x + 1/2⌋ : ℤ) : ℚ)

/-- Model of an `i64 as u16` cast: truncation to the low 16 bits (`n % 65536` is already
non-negative, so `natAbs` just converts it to `ℕ`). -/
def i64_as_u16 (n : ℤ) : ℕ :=
  (n % 65536).natAbs

/-- Model of `u16` subtraction with wrapping (release-profile) semantics. -/
def wsub (a b : ℕ) : ℕ :=
  (((a : ℤ) - (b : ℤ)) % 65536).natAbs

/-- From `src/gdd.rs`: clamped-average growing-degree-day formula. -/
def calculate_gdd (max_temp0 min_temp0 base_temp0 : ℚ) : ℚ :=
  let max_temp := max max_temp0 0       -- limit max_temp to no less than 0
  let max_temp := min max_temp 30       -- limit max_temp to 30
  let min_temp := max min_temp0 (-5)    -- limit min_temp to no less than -5
  let min_temp := min min_temp 30       -- limit min_temp to 30
  let base_temp := max base_temp0 0     -- base_temp not below 0
  let max_temp := max max_temp min_temp -- max_temp not below min_temp
  let avg_temp := (max_temp + min_temp) / 2
  if avg_temp ≤ base_temp then 0 else avg_temp - base_temp

/-- From `src/kc_gdd.rs`: GDD-indexed crop profile.  Each pair is
(threshold in cumulative GDD, end-of-stage Kc), matching the Rust
`(f32, f32)` tuples. -/
structure CropCoefficientsGdd where
  crop_name : String
  initial_end_kc : ℚ × ℚ
  development_end_kc : ℚ × ℚ
  mid_end_kc : ℚ × ℚ
  late_end_kc : ℚ × ℚ

/-- Model of `CropCoefficientsGdd::new`: the two Rust panic calls are
modelled as `Except.error` carrying the panic message. -/
def CropCoefficientsGdd.new (crop_name : String)
    (initial_end_kc development_end_kc mid_end_kc late_end_kc : ℚ × ℚ) :
    Except String CropCoefficientsGdd :=
  if initial_end_kc.1 < 0 ∨ development_end_kc.1 < 0 ∨ mid_end_kc.1 < 0 ∨
      late_end_kc.1 < 0 then
    .error "Length of period must be positive."
  else if 2 < initial_end_kc.2 ∨ 2 < development_end_kc.2 ∨ 2 < mid_end_kc.2 ∨
      2 < late_end_kc.2 then
    .error "Kc cannot exceed 2."
  else
    .ok { crop_name := crop_name, initial_end_kc := initial_end_kc,
          development_end_kc := development_end_kc, mid_end_kc := mid_end_kc,
          late_end_kc := late_end_kc }

/-- From `src/kc_gdd.rs`: `adjust_kc`.  `pow3 x` stands for
`x.powf(0.3)`. -/
def adjust_kc (pow3 : ℚ → ℚ) (kc_original wind_speed rh_min crop_height : ℚ) : ℚ :=
  let term1 := 0.04 * (wind_speed - 2.0)
  let term2 := 0.0004 * (rh_min - 45.0)
  let adjustment := (term1 - term2) * pow3 (crop_height / 3.0)
  kc_original + adjustment

/-- From `src/kc_gdd.rs`: `crop_coefficient_gdd`.  Note that only the
initial-stage branch calls `.round()`; the other branches compute
`(x * 100.0) / 100.0` with no rounding, exactly as in the source. -/
def crop_coefficient_gdd (pow3 : ℚ → ℚ) (cumulative_gdd : ℚ)
    (cc : CropCoefficientsGdd) (wind_speed rh_min crop_height : Option ℚ) :
    String × ℚ :=
  let wind_speed := wind_speed.getD 2.0
  let rh_min0 := rh_min.getD 45.0
  let crop_height := crop_height.getD 1.391
  let rh_min := if rh_min0 < 1.0 then rh_min0 * 100.0 else rh_min0
  if cumulative_gdd ≤ cc.initial_end_kc.1 then
    (cc.crop_name, rustRound (cc.initial_end_kc.2 * 100.0) / 100.0)
  else if cumulative_gdd ≤ cc.development_end_kc.1 then
    (cc.crop_name,
      ((cc.initial_end_kc.2 + (cc.development_end_kc.2 - cc.initial_end_kc.2) *
          ((cumulative_gdd - cc.initial_end_kc.1) /
            (cc.development_end_kc.1 - cc.initial_end_kc.1))) * 100.0) / 100.0)
  else if cumulative_gdd ≤ cc.mid_end_kc.1 then
    let kc_org := cc.development_end_kc.2 +
      (cc.mid_end_kc.2 - cc.development_end_kc.2) *
        ((cumulative_gdd - cc.development_end_kc.1) /
          (cc.mid_end_kc.1 - cc.development_end_kc.1))
    (cc.crop_name, (adjust_kc pow3 kc_org wind_speed rh_min crop_height * 100.0) / 100.0)
  else
    let kc_org := cc.mid_end_kc.2 - (cc.mid_end_kc.2 - cc.late_end_kc.2) *
      ((cumulative_gdd - cc.late_end_kc.1) / (cc.mid_end_kc.1 - cc.late_end_kc.1))
    if 0.45 < kc_org then
      (cc.crop_name, (adjust_kc pow3 kc_org wind_speed rh_min crop_height * 100.0) / 100.0)
    else
      (cc.crop_name, (kc_org * 100.0) / 100.0)

/-- From `src/kcc_gs.rs`: one stage of a day-indexed profile.  `days` is
a `u16` (invariant `< 65536` carried as hypotheses where needed). -/
structure KcStage where
  days : ℕ
  kc : ℚ

def KcStage.new (days : ℕ) (kc : ℚ) : KcStage :=
  { days := days, kc := kc }

inductive GrowthStage where
  | Initial
  | Development
  | Mid
  | Late
deriving DecidableEq

/-- From `src/kcc_gs.rs`: day-indexed crop profile. -/
structure CropCoefficientsGs where
  crop_name : String
  initial_end_kc : KcStage
  development_end_kc : KcStage
  mid_end_kc : KcStage
  late_end_kc : KcStage
  planting_date : ℤ
  crop_height : ℚ

/-- Model of `CropCoefficientsGs::new`: it panics (modelled as
`Except.error`) only when some Kc exceeds 2; the `u16` day fields cannot
be negative. -/
def CropCoefficientsGs.new (crop_name : String)
    (initial_end_kc development_end_kc mid_end_kc late_end_kc : ℕ × ℚ)
    (planting_date : ℤ) (crop_height : ℚ) :
    Except String CropCoefficientsGs :=
  if 2 < initial_end_kc.2 ∨ 2 < development_end_kc.2 ∨ 2 < mid_end_kc.2 ∨
      2 < late_end_kc.2 then
    .error "Kc cannot exceed 2."
  else
    .ok { crop_name := crop_name,
          initial_end_kc := KcStage.new initial_end_kc.1 initial_end_kc.2,
          development_end_kc := KcStage.new development_end_kc.1 development_end_kc.2,
          mid_end_kc := KcStage.new mid_end_kc.1 mid_end_kc.2,
          late_end_kc := KcStage.new late_end_kc.1 late_end_kc.2,
          planting_date := planting_date, crop_height := crop_height }

/-- From `src/kcc_gs.rs`: `determine_growth_stage` on an `i64` day
count. -/
def CropCoefficientsGs.determine_growth_stage (self : CropCoefficientsGs)
    (days_since_planting : ℤ) : GrowthStage :=
  if days_since_planting ≤ (self.initial_end_kc.days : ℤ) then .Initial
  else if days_since_planting ≤ (self.development_end_kc.days : ℤ) then .Development
  else if days_since_planting ≤ (self.mid_end_kc.days : ℤ) then .Mid
  else .Late

/-- From `src/kcc_gs.rs`: `coefficient_from_date`.  The day count stays
`i64` here (no `u16` cast); each interpolation has an explicit
`length == 0` guard; the environmental adjustment is applied whenever
the stage is Mid or Late, with no normalization of `rh_min` and no
rounding of the result. -/
def CropCoefficientsGs.coefficient_from_date (self : CropCoefficientsGs)
    (pow3 : ℚ → ℚ) (date : ℤ) (wind_speed rh_min crop_height : Option ℚ) : ℚ :=
  let days_since_planting : ℤ := date - self.planting_date
  let growth_stage := self.determine_growth_stage days_since_planting
  let kc :=
    match growth_stage with
    | .Initial => self.initial_end_kc.kc
    | .Development =>
        let days_into := days_since_planting - (self.initial_end_kc.days : ℤ)
        let length : ℤ := (wsub self.development_end_kc.days self.initial_end_kc.days : ℕ)
        if length = 0 then
          self.development_end_kc.kc
        else
          self.initial_end_kc.kc +
            (self.development_end_kc.kc - self.initial_end_kc.kc) *
              ((days_into : ℚ) / (length : ℚ))
    | .Mid => self.mid_end_kc.kc
    | .Late =>
        let days_into := days_since_planting - (self.mid_end_kc.days : ℤ)
        let length : ℤ := (wsub self.late_end_kc.days self.mid_end_kc.days : ℕ)
        if length = 0 then
          self.late_end_kc.kc
        else
          self.mid_end_kc.kc +
            (self.late_end_kc.kc - self.mid_end_kc.kc) *
              ((days_into : ℚ) / (length : ℚ))
  if (match growth_stage with
      | .Mid => true
      | .Late => true
      | _ => false) = true then
    adjust_kc pow3 kc (wind_speed.getD 2.0) (rh_min.getD 45.0) (crop_height.getD 0.4)
  else
    kc

/-- From `src/kcc_gs.rs`: the free function `crop_coefficient_gs`.  The
day count is `num_days() as u16` (wrapping truncation); the stage
interpolations are `u16` integer divisions cast to `f32` afterwards; a
zero divisor aborts (modelled as `Except.error`, the one failure point —
the in-branch conditions make the development and mid guards dead, but
they are kept to mirror Rust division semantics uniformly). -/
def crop_coefficient_gs (pow3 : ℚ → ℚ) (planting_date date : ℤ)
    (cc : CropCoefficientsGs) (wind_speed rh_min crop_height : Option ℚ) :
    Except String (String × ℚ) :=
  let wind_speed := wind_speed.getD 2.0
  let rh_min0 := rh_min.getD 45.0
  let crop_height := crop_height.getD 1.391
  let days_since_planting : ℕ := i64_as_u16 (date - planting_date)
  let rh_min := if rh_min0 < 1.0 then rh_min0 * 100.0 else rh_min0
  if days_since_planting ≤ cc.initial_end_kc.days then
    .ok (cc.crop_name, rustRound (cc.initial_end_kc.kc * 100.0) / 100.0)
  else if days_since_planting ≤ cc.development_end_kc.days then
    let num := wsub days_since_planting cc.initial_end_kc.days
    let den := wsub cc.development_end_kc.days cc.initial_end_kc.days
    if den = 0 then .error "attempt to divide by zero"
    else
      .ok (cc.crop_name,
        ((cc.initial_end_kc.kc + (cc.development_end_kc.kc - cc.initial_end_kc.kc) *
            ((num / den : ℕ) : ℚ)) * 100.0) / 100.0)
  else if days_since_planting ≤ cc.mid_end_kc.days then
    let num := wsub days_since_planting cc.development_end_kc.days
    let den := wsub cc.mid_end_kc.days cc.development_end_kc.days
    if den = 0 then .error "attempt to divide by zero"
    else
      let kc_org := cc.development_end_kc.kc +
        (cc.mid_end_kc.kc - cc.development_end_kc.kc) * ((num / den : ℕ) : ℚ)
      .ok (cc.crop_name, (adjust_kc pow3 kc_org wind_speed rh_min crop_height * 100.0) / 100.0)
  else
    let num := wsub days_since_planting cc.late_end_kc.days
    let den := wsub cc.mid_end_kc.days cc.late_end_kc.days
    if den = 0 then .error "attempt to divide by zero"
    else
      let kc_org := cc.mid_end_kc.kc - (cc.mid_end_kc.kc - cc.late_end_kc.kc) *
        ((num / den : ℕ) : ℚ)
      if 0.45 < kc_org then
        .ok (cc.crop_name, (adjust_kc pow3 kc_org wind_speed rh_min crop_height * 100.0) / 100.0)
      else
        .ok (cc.crop_name, (kc_org * 100.0) / 100.0)

/-- Fixture: the "corn" profile of the repository's own test data
(`growth_stages_days = [20,30,50,20]` giving cumulative thresholds
20/50/100/120, Kc `0.3 / 1.2 / 1.2 / 0.6`), day-indexed form. -/
def cornGs : CropCoefficientsGs :=
  { crop_name := "corn",
    initial_end_kc := KcStage.new 20 (3/10),
    development_end_kc := KcStage.new 50 (6/5),
    mid_end_kc := KcStage.new 100 (6/5),
    late_end_kc := KcStage.new 120 (3/5),
    planting_date := 0, crop_height := 2 }

/-- Fixture: the same corn profile with the thresholds read as
cumulative GDD. -/
def cornGdd : CropCoefficientsGdd :=
  { crop_name := "corn",
    initial_end_kc := (20, 3/10),
    development_end_kc := (50, 6/5),
    mid_end_kc := (100, 6/5),
    late_end_kc := (120, 3/5) }

/-- Fixture: the spec's midpoint-interpolation profile (thresholds
100/200/300/400, Kc `0.5 / 1.0 / 1.2 / 0.8`), day-indexed form. -/
def midpointGs : CropCoefficientsGs :=
  { crop_name := "Test Crop",
    initial_end_kc := KcStage.new 100 (1/2),
    development_end_kc := KcStage.new 200 1,
    mid_end_kc := KcStage.new 300 (6/5),
    late_end_kc := KcStage.new 400 (4/5),
    planting_date := 0, crop_height := 2 }

/-- Fixture: the spec's midpoint-interpolation profile, GDD-indexed
form. -/
def midpointGdd : CropCoefficientsGdd :=
  { crop_name := "Test Crop",
    initial_end_kc := (100, 1/2),
    development_end_kc := (200, 1),
    mid_end_kc := (300, 6/5),
    late_end_kc := (400, 4/5) }

/-- Fixture: a profile whose Mid plateau sits at `0.4` and whose late
stage interpolates down to `0.2`, so late-stage values fall at or below
`0.45`. -/
def lowLateGs : CropCoefficientsGs :=
  { crop_name := "low",
    initial_end_kc := KcStage.new 20 (3/10),
    development_end_kc := KcStage.new 50 (2/5),
    mid_end_kc := KcStage.new 100 (2/5),
    late_end_kc := KcStage.new 120 (1/5),
    planting_date := 0, crop_height := 1 }

/-- Fixture: a day-indexed profile with a zero-length late stage (mid
threshold equals late threshold). -/
def zeroLateGs : CropCoefficientsGs :=
  { crop_name := "degenerate",
    initial_end_kc := KcStage.new 20 (3/10),
    development_end_kc := KcStage.new 50 (11/10),
    mid_end_kc := KcStage.new 100 (11/10),
    late_end_kc := KcStage.new 100 (3/5),
    planting_date := 0, crop_height := 1 }

/-- Fixture: a GDD-indexed profile used for the rounding claim
(initial Kc `0.3`, development Kc `0.5` over `[100, 200]`). -/
def wheatGdd : CropCoefficientsGdd :=
  { crop_name := "Wheat",
    initial_end_kc := (100, 3/10),
    development_end_kc := (200, 1/2),
    mid_end_kc := (300, 4/5),
    late_end_kc := (400, 3/5) }

/-- The pre-adjustment late-stage value of `crop_coefficient_gdd`
(verbatim the `kc_org` of its final branch). -/
def lateKcGdd (cc : CropCoefficientsGdd) (cumulative_gdd : ℚ) : ℚ :=
  cc.mid_end_kc.2 - (cc.mid_end_kc.2 - cc.late_end_kc.2) *
    ((cumulative_gdd - cc.late_end_kc.1) / (cc.mid_end_kc.1 - cc.late_end_kc.1))

/-- The pre-adjustment late-stage value of `crop_coefficient_gs`
(verbatim the `kc_org` of its final branch, `u16` arithmetic included). -/
def lateKcGs (cc : CropCoefficientsGs) (days_since_planting : ℕ) : ℚ :=
  cc.mid_end_kc.kc - (cc.mid_end_kc.kc - cc.late_end_kc.kc) *
    ((wsub days_since_planting cc.late_end_kc.days /
        wsub cc.mid_end_kc.days cc.late_end_kc.days : ℕ) : ℚ)

/-- The pre-adjustment Late-stage value of `coefficient_from_date`
(verbatim its `GrowthStage::Late` match arm, zero-length guard
included). -/
def lateKcFromDate (self : CropCoefficientsGs) (days_since_planting : ℤ) : ℚ :=
  if ((wsub self.late_end_kc.days self.mid_end_kc.days : ℕ) : ℤ) = 0 then
    self.late_end_kc.kc
  else
    self.mid_end_kc.kc +
      (self.late_end_kc.kc - self.mid_end_kc.kc) *
        (((days_since_planting - (self.mid_end_kc.days : ℤ) : ℤ) : ℚ) /
          (((wsub self.late_end_kc.days self.mid_end_kc.days : ℕ) : ℤ) : ℚ))

/-- The humidity normalization step shared by `crop_coefficient_gdd` and
`crop_coefficient_gs` (`if rh_min < 1.0 { rh_min *= 100.0 }`). -/
def normalizeRh (rh_min : ℚ) : ℚ :=
  if rh_min < 1.0 then rh_min * 100.0 else rh_min

/-- Whether an `Except` is a success (no panic). -/
def isOkE {ε α : Type} : Except ε α → Bool
  | .ok _ => true
  | .error _ => false

theorem isOkE_ok {ε α : Type} (a : α) : isOkE (Except.ok (ε := ε) a) = true := rfl

theorem isOkE_error {ε α : Type} (e : ε) : isOkE (Except.error (α := α) e) = false := rfl

theorem i64_as_u16_lt (n : ℤ) : i64_as_u16 n < 65536 := by
  unfold i64_as_u16
  omega

theorem wsub_eq_zero_iff {a b : ℕ} (ha : a < 65536) (hb : b < 65536) :
    wsub a b = 0 ↔ a = b := by
  unfold wsub
  omega

/-- Claim C1: both stage models are claimed to compute the development
stage as the linear interpolation `kc_i + (kc_d - kc_i) * (pos - t_i) /
(t_d - t_i)`, so that position 150 over `[100, 200]` with Kc `{0.5, 1.0}`
gives `0.75 ± 0.01`.  The GDD-indexed model does (it returns exactly
`0.75`), but the day-indexed `crop_coefficient_gs` performs the stage
fraction as a `u16` integer division, whose quotient is `0` strictly
inside the stage: at position 150 it returns `0.5`, outside the claimed
tolerance. -/
theorem claim_C1_development_interpolation :
    crop_coefficient_gdd (fun x => x) 150 midpointGdd none none none =
      ("Test Crop", 3/4)
    ∧ crop_coefficient_gs (fun x => x) 0 150 midpointGs none none none =
        Except.ok ("Test Crop", 1/2)
    ∧ ¬ |(1/2 : ℚ) - 3/4| ≤ 1/100 := by
  refine ⟨?_, ?_, ?_⟩
  · norm_num [crop_coefficient_gdd, midpointGdd, adjust_kc, rustRound]
  · norm_num [crop_coefficient_gs, midpointGs, KcStage.new, i64_as_u16, wsub,
      adjust_kc, rustRound]
  · norm_num [abs_le]

/-- Claim C3: a negative cumulative GDD does give the initial Kc in the
GDD-indexed model, and `coefficient_from_date` gives the initial Kc for a
date before planting; but the day-indexed `crop_coefficient_gs` casts the
negative day count with `as u16`, wrapping `-1` to `65535`, lands in the
Late stage and returns the adjusted value `1.2` instead of the initial
`0.3`. -/
theorem claim_C3_before_initial_positions :
    crop_coefficient_gdd (fun x => x) (-50) cornGdd none none none =
      ("corn", 3/10)
    ∧ cornGs.coefficient_from_date (fun x => x) (-5) none none none = 3/10
    ∧ crop_coefficient_gs (fun x => x) 0 (-1) cornGs none none none =
        Except.ok ("corn", 6/5)
    ∧ cornGs.initial_end_kc.kc = 3/10
    ∧ (6/5 : ℚ) ≠ 3/10 := by
  refine ⟨?_, ?_, ?_, ?_, ?_⟩ <;>
    norm_num [crop_coefficient_gdd, crop_coefficient_gs,
      CropCoefficientsGs.coefficient_from_date, CropCoefficientsGs.determine_growth_stage,
      cornGdd, cornGs, KcStage.new, i64_as_u16, wsub, adjust_kc, rustRound]

/-- Claim C4: returned Kc values are claimed to be rounded to 2 decimal
places in every stage branch, but only the initial-stage branch calls
`.round()`; the development branch computes `(kc * 100.0) / 100.0`,
which is the identity: at cumulative GDD 101 the development Kc `0.302`
is returned as is, where rounding would give `0.30`. -/
theorem claim_C4_rounding_missing :
    crop_coefficient_gdd (fun x => x) 101 wheatGdd none none none =
      ("Wheat", 151/500)
    ∧ rustRound ((151/500 : ℚ) * 100.0) / 100.0 = 3/10
    ∧ (151/500 : ℚ) ≠ 3/10 := by
  refine ⟨?_, ?_, ?_⟩ <;>
    norm_num [crop_coefficient_gdd, wheatGdd, adjust_kc, rustRound]

/-- Claim C7: the GDD-indexed late branch computes exactly the
extrapolation `kc_m - (kc_m - kc_l) * ((pos - t_l) / (t_m - t_l))`
(`0.9` for the corn profile at position 110), but the day-indexed
`crop_coefficient_gs` evaluates the same branch with wrapping `u16`
subtraction and integer division (`(110 - 120) as u16 = 65526`,
`(100 - 120) as u16 = 65516`, quotient `1`), returning `0.6` instead. -/
theorem claim_C7_late_extrapolation :
    crop_coefficient_gdd (fun x => x) 110 cornGdd none none none =
      ("corn", 9/10)
    ∧ lateKcGdd cornGdd 110 = 9/10
    ∧ crop_coefficient_gs (fun x => x) 0 110 cornGs none none none =
        Except.ok ("corn", 3/5)
    ∧ (3/5 : ℚ) ≠ 9/10 := by
  refine ⟨?_, ?_, ?_, ?_⟩ <;>
    norm_num [crop_coefficient_gdd, crop_coefficient_gs, lateKcGdd, cornGdd, cornGs,
      KcStage.new, i64_as_u16, wsub, adjust_kc, rustRound]

/-- Claim C2 (counterexample): `crop_coefficient_gs` on a profile with a
zero-length late stage (mid threshold = late threshold) aborts with a
division error once the position passes the mid threshold, contradicting
"evaluation never fails, and no division error is raised". -/
theorem claim_C2_counterexample :
    crop_coefficient_gs (fun x => x) 0 150 zeroLateGs none none none =
      Except.error "attempt to divide by zero" := by
  norm_num [crop_coefficient_gs, zeroLateGs, KcStage.new, i64_as_u16, wsub, adjust_kc,
    rustRound]

/-- Claim C5 (counterexample): in `coefficient_from_date` the Late-stage
value `0.3 ≤ 0.45` is still environmentally adjusted — with wind 3 m/s it
returns `0.34`, while at the default wind it returns the unadjusted
`0.3` — so the `0.45` cut-off does not govern that evaluation path. -/
theorem claim_C5_counterexample :
    lowLateGs.coefficient_from_date (fun x => x) 110 (some 3) none (some 3) =
      17/50
    ∧ lowLateGs.coefficient_from_date (fun x => x) 110 none none (some 3) =
        3/10
    ∧ (3/10 : ℚ) ≤ 0.45
    ∧ (17/50 : ℚ) ≠ 3/10 := by
  refine ⟨?_, ?_, ?_, ?_⟩ <;>
    norm_num [CropCoefficientsGs.coefficient_from_date,
      CropCoefficientsGs.determine_growth_stage, lowLateGs, KcStage.new, wsub, adjust_kc]

/-- Claim C6 (counterexample): `coefficient_from_date` never normalizes
`rh_min`, so supplying `0.45` and `45.0` give different results in its
Mid stage, contrary to the claim that every adjusting path multiplies a
humidity below 1.0 by 100 first. -/
theorem claim_C6_counterexample :
    lowLateGs.coefficient_from_date (fun x => x) 60 none (some (9/20)) (some 3) ≠
      lowLateGs.coefficient_from_date (fun x => x) 60 none (some 45) (some 3) := by
  norm_num [CropCoefficientsGs.coefficient_from_date,
    CropCoefficientsGs.determine_growth_stage, lowLateGs, KcStage.new, wsub, adjust_kc]

/-- Claim C8 (counterexample): `CropCoefficientsGdd::new` does reject a
negative threshold (panicking with "Length of period must be positive."),
refuting the claim that the GDD-indexed variant performs no negativity
check while the day-indexed one does. -/
theorem claim_C8_counterexample :
    CropCoefficientsGdd.new "c" (-1, 1/2) (2, 1/2) (3, 1/2) (4, 1/2) =
      Except.error "Length of period must be positive." := by
  rfl

/-- Claim C10: for all inputs, `calculate_gdd` returns a value that is at
least 0, and (thanks to the clamps to `[0, 30]`, `[-5, 30]` and
`base_temp ≥ 0`) never exceeds 30. -/
theorem claim_C10_gdd_bounds :
    ∀ mx mn b : ℚ, 0 ≤ calculate_gdd mx mn b ∧ calculate_gdd mx mn b ≤ 30 := by
  intro mx mn b
  simp only [calculate_gdd]
  split_ifs with h
  · norm_num
  · have h1 : min (max mx 0) 30 ≤ 30 := min_le_right _ _
    have h2 : min (max mn (-5)) 30 ≤ 30 := min_le_right _ _
    have h3 : max (min (max mx 0) 30) (min (max mn (-5)) 30) ≤ 30 := max_le h1 h2
    have h4 : (0:ℚ) ≤ max b 0 := le_max_right _ _
    constructor
    · linarith [not_le.1 h]
    · linarith

/-- Claim C9: `adjust_kc` returns exactly
`kc + (0.04*(ws - 2.0) - 0.0004*(rh - 45.0)) * (h/3.0)^0.3` for every
input (with the `powf(0.3)` call abstracted as `pow3`), and consequently
at the reference conditions (defaults wind 2.0 m/s, rh 45 %) the
mid-stage Kc of `crop_coefficient_gdd` equals the unadjusted
development-to-mid interpolation exactly. -/
theorem claim_C9_adjust_formula (pow3 : ℚ → ℚ) (kc ws rh h : ℚ)
    (cc : CropCoefficientsGdd) (g : ℚ)
    (g1 : ¬ g ≤ cc.initial_end_kc.1) (g2 : ¬ g ≤ cc.development_end_kc.1)
    (g3 : g ≤ cc.mid_end_kc.1) :
    adjust_kc pow3 kc ws rh h =
      kc + (0.04 * (ws - 2.0) - 0.0004 * (rh - 45.0)) * pow3 (h / 3.0)
    ∧ (crop_coefficient_gdd pow3 g cc none none none).2 =
        cc.development_end_kc.2 + (cc.mid_end_kc.2 - cc.development_end_kc.2) *
          ((g - cc.development_end_kc.1) / (cc.mid_end_kc.1 - cc.development_end_kc.1)) := by
  constructor
  · rfl
  · simp only [crop_coefficient_gdd, Option.getD_none, if_neg g1, if_neg g2, if_pos g3]
    rw [if_neg (by norm_num : ¬ (45.0 : ℚ) < 1.0)]
    simp only [adjust_kc]
    ring

/-- Witness for claim C9 at the corn profile, position 80, and concrete
adjustment inputs. -/
theorem claim_C9_witness :
    (¬ (80:ℚ) ≤ cornGdd.initial_end_kc.1) ∧ (¬ (80:ℚ) ≤ cornGdd.development_end_kc.1) ∧
    ((80:ℚ) ≤ cornGdd.mid_end_kc.1) ∧
    (adjust_kc (fun x => x) 1 3 30 (3/2) =
        1 + (0.04 * ((3:ℚ) - 2.0) - 0.0004 * ((30:ℚ) - 45.0)) * (fun x : ℚ => x) (3/2 / 3.0)
      ∧ (crop_coefficient_gdd (fun x => x) 80 cornGdd none none none).2 =
          cornGdd.development_end_kc.2 + (cornGdd.mid_end_kc.2 - cornGdd.development_end_kc.2) *
            ((80 - cornGdd.development_end_kc.1) / (cornGdd.mid_end_kc.1 - cornGdd.development_end_kc.1))) :=
  ⟨by norm_num [cornGdd], by norm_num [cornGdd], by norm_num [cornGdd],
   claim_C9_adjust_formula (fun x => x) 1 3 30 (3/2) cornGdd 80
     (by norm_num [cornGdd]) (by norm_num [cornGdd]) (by norm_num [cornGdd])⟩

/-- Claim C8 (amended): either constructor fails exactly when some stage
Kc exceeds 2.0, and it is the GDD-indexed variant — not the day-indexed
one — that additionally rejects negative thresholds; the day-indexed
variant has no negativity check because its `u16` thresholds cannot be
negative.  Construction succeeds in every other case. -/
theorem claim_C8_amended :
    (∀ (name : String) (i d m l : ℚ × ℚ),
      isOkE (CropCoefficientsGdd.new name i d m l) = true ↔
        (0 ≤ i.1 ∧ 0 ≤ d.1 ∧ 0 ≤ m.1 ∧ 0 ≤ l.1 ∧
         i.2 ≤ 2 ∧ d.2 ≤ 2 ∧ m.2 ≤ 2 ∧ l.2 ≤ 2))
    ∧ (∀ (name : String) (i d m l : ℕ × ℚ) (p : ℤ) (ch : ℚ),
      isOkE (CropCoefficientsGs.new name i d m l p ch) = true ↔
        (i.2 ≤ 2 ∧ d.2 ≤ 2 ∧ m.2 ≤ 2 ∧ l.2 ≤ 2)) := by
  constructor
  · intro name i d m l
    unfold CropCoefficientsGdd.new
    split_ifs with h1 h2
    · rw [isOkE_error]
      simp only [Bool.false_eq_true, false_iff]
      rintro ⟨p1, p2, p3, p4, q1, q2, q3, q4⟩
      rcases h1 with h | h | h | h <;> linarith
    · rw [isOkE_error]
      simp only [Bool.false_eq_true, false_iff]
      rintro ⟨p1, p2, p3, p4, q1, q2, q3, q4⟩
      rcases h2 with h | h | h | h <;> linarith
    · rw [isOkE_ok]
      push_neg at h1 h2
      exact iff_of_true rfl
        ⟨h1.1, h1.2.1, h1.2.2.1, h1.2.2.2, h2.1, h2.2.1, h2.2.2.1, h2.2.2.2⟩
  · intro name i d m l p ch
    unfold CropCoefficientsGs.new
    split_ifs with h1
    · rw [isOkE_error]
      simp only [Bool.false_eq_true, false_iff]
      rintro ⟨q1, q2, q3, q4⟩
      rcases h1 with h | h | h | h <;> linarith
    · rw [isOkE_ok]
      push_neg at h1
      exact iff_of_true rfl ⟨h1.1, h1.2.1, h1.2.2.1, h1.2.2.2⟩

/-- Claim C6 (amended): in `crop_coefficient_gdd` and
`crop_coefficient_gs` a supplied `rh_min` below 1.0 is multiplied by 100
before any use, so `rh` and `rh * 100` give identical results whenever
`rh < 1.0 ≤ rh * 100`; `coefficient_from_date` (see the counterexample)
performs no such normalization. -/
theorem claim_C6_amended (pow3 : ℚ → ℚ) (g : ℚ) (cc : CropCoefficientsGdd)
    (ws hco : Option ℚ) (rh : ℚ) (p d : ℤ) (gcc : CropCoefficientsGs)
    (ws2 hco2 : Option ℚ)
    (h1 : rh < 1.0) (h2 : 1.0 ≤ rh * 100.0) :
    crop_coefficient_gdd pow3 g cc ws (some rh) hco =
      crop_coefficient_gdd pow3 g cc ws (some (rh * 100.0)) hco
    ∧ crop_coefficient_gs pow3 p d gcc ws2 (some rh) hco2 =
        crop_coefficient_gs pow3 p d gcc ws2 (some (rh * 100.0)) hco2 := by
  have key : (if rh < 1.0 then rh * 100.0 else rh) =
      (if rh * 100.0 < 1.0 then rh * 100.0 * 100.0 else rh * 100.0) := by
    rw [if_pos h1, if_neg (not_lt.2 h2)]
  constructor
  · simp only [crop_coefficient_gdd, Option.getD_some]
    rw [key]
  · simp only [crop_coefficient_gs, Option.getD_some]
    rw [key]

/-- Witness for claim C6 at `rh = 0.45` on concrete profiles (mid-stage
positions on both models). -/
theorem claim_C6_witness :
    ((9/20 : ℚ) < 1.0) ∧ ((1.0 : ℚ) ≤ 9/20 * 100.0) ∧
    (crop_coefficient_gdd (fun x => x) 600 wheatGdd (some 3) (some (9/20)) (some 1) =
        crop_coefficient_gdd (fun x => x) 600 wheatGdd (some 3) (some (9/20 * 100.0)) (some 1)
      ∧ crop_coefficient_gs (fun x => x) 0 600 cornGs (some 3) (some (9/20)) (some 1) =
          crop_coefficient_gs (fun x => x) 0 600 cornGs (some 3) (some (9/20 * 100.0)) (some 1)) :=
  ⟨by norm_num, by norm_num,
   claim_C6_amended (fun x => x) 600 wheatGdd (some 3) (some 1) (9/20) 0 600 cornGs
     (some 3) (some 1) (by norm_num) (by norm_num)⟩

/-- Claim C2 (amended): `crop_coefficient_gdd` and
`coefficient_from_date` are total by construction, but
`crop_coefficient_gs` is only failure-free when the mid and late day
thresholds differ: under that proviso (and the `u16` range invariant on
the day fields) every evaluation returns a defined Kc — in particular a
zero-length development stage never divides by zero, because its branch
is unreachable.  With equal mid and late thresholds it aborts (see the
counterexample). -/
theorem claim_C2_amended (pow3 : ℚ → ℚ) (p d : ℤ) (cc : CropCoefficientsGs)
    (ws rh hco : Option ℚ)
    (b1 : cc.initial_end_kc.days < 65536) (b2 : cc.development_end_kc.days < 65536)
    (b3 : cc.mid_end_kc.days < 65536) (b4 : cc.late_end_kc.days < 65536)
    (hne : cc.mid_end_kc.days ≠ cc.late_end_kc.days) :
    ∃ v, crop_coefficient_gs pow3 p d cc ws rh hco = Except.ok v := by
  simp only [crop_coefficient_gs]
  split_ifs <;>
    first
      | exact ⟨_, rfl⟩
      | (exfalso; simp only [wsub, i64_as_u16] at *; omega)

/-- Witness for claim C2 on the corn profile (distinct mid/late
thresholds), 150 days after planting. -/
theorem claim_C2_witness :
    cornGs.initial_end_kc.days < 65536 ∧ cornGs.development_end_kc.days < 65536 ∧
    cornGs.mid_end_kc.days < 65536 ∧ cornGs.late_end_kc.days < 65536 ∧
    cornGs.mid_end_kc.days ≠ cornGs.late_end_kc.days ∧
    ∃ v, crop_coefficient_gs (fun x => x) 0 150 cornGs none none none = Except.ok v :=
  ⟨by norm_num [cornGs, KcStage.new], by norm_num [cornGs, KcStage.new],
   by norm_num [cornGs, KcStage.new], by norm_num [cornGs, KcStage.new],
   by norm_num [cornGs, KcStage.new],
   claim_C2_amended (fun x => x) 0 150 cornGs none none none
     (by norm_num [cornGs, KcStage.new]) (by norm_num [cornGs, KcStage.new])
     (by norm_num [cornGs, KcStage.new]) (by norm_num [cornGs, KcStage.new])
     (by norm_num [cornGs, KcStage.new])⟩

/-- Claim C5 (amended): in `crop_coefficient_gdd` and
`crop_coefficient_gs` the late-stage value is environmentally adjusted
exactly when it exceeds 0.45 (each equals its branch value, adjusted
under the `0.45 <` test and returned plain otherwise), while
`coefficient_from_date` applies the adjustment unconditionally in the
Late stage, with no 0.45 test at all. -/
theorem claim_C5_amended (pow3 : ℚ → ℚ)
    (cc : CropCoefficientsGdd) (g : ℚ) (ws rh hco : Option ℚ)
    (g1 : ¬ g ≤ cc.initial_end_kc.1) (g2 : ¬ g ≤ cc.development_end_kc.1)
    (g3 : ¬ g ≤ cc.mid_end_kc.1)
    (gcc : CropCoefficientsGs) (p d : ℤ)
    (d1 : ¬ i64_as_u16 (d - p) ≤ gcc.initial_end_kc.days)
    (d2 : ¬ i64_as_u16 (d - p) ≤ gcc.development_end_kc.days)
    (d3 : ¬ i64_as_u16 (d - p) ≤ gcc.mid_end_kc.days)
    (d4 : ¬ wsub gcc.mid_end_kc.days gcc.late_end_kc.days = 0)
    (self : CropCoefficientsGs) (date : ℤ) (ws2 rh2 hco2 : Option ℚ)
    (e1 : self.determine_growth_stage (date - self.planting_date) = GrowthStage.Late) :
    (crop_coefficient_gdd pow3 g cc ws rh hco).2 =
      (if 0.45 < lateKcGdd cc g then
        adjust_kc pow3 (lateKcGdd cc g) (ws.getD 2.0) (normalizeRh (rh.getD 45.0))
          (hco.getD 1.391) * 100.0 / 100.0
      else lateKcGdd cc g * 100.0 / 100.0)
    ∧ crop_coefficient_gs pow3 p d gcc ws rh hco =
        Except.ok (gcc.crop_name,
          if 0.45 < lateKcGs gcc (i64_as_u16 (d - p)) then
            adjust_kc pow3 (lateKcGs gcc (i64_as_u16 (d - p))) (ws.getD 2.0)
              (normalizeRh (rh.getD 45.0)) (hco.getD 1.391) * 100.0 / 100.0
          else lateKcGs gcc (i64_as_u16 (d - p)) * 100.0 / 100.0)
    ∧ self.coefficient_from_date pow3 date ws2 rh2 hco2 =
        adjust_kc pow3 (lateKcFromDate self (date - self.planting_date))
          (ws2.getD 2.0) (rh2.getD 45.0) (hco2.getD 0.4) := by
  refine ⟨?_, ?_, ?_⟩
  · simp only [crop_coefficient_gdd, lateKcGdd, normalizeRh, if_neg g1, if_neg g2, if_neg g3]
    split_ifs <;> rfl
  · simp only [crop_coefficient_gs, lateKcGs, normalizeRh, if_neg d1, if_neg d2, if_neg d3,
      if_neg d4]
    split_ifs <;> rfl
  · simp only [CropCoefficientsGs.coefficient_from_date, lateKcFromDate, e1]
    rfl

/-- Witness for claim C5 at position/day 110 of the corn profiles and
the low-late-Kc profile. -/
theorem claim_C5_witness :
    (¬ (110:ℚ) ≤ cornGdd.initial_end_kc.1) ∧ (¬ (110:ℚ) ≤ cornGdd.development_end_kc.1) ∧
    (¬ (110:ℚ) ≤ cornGdd.mid_end_kc.1) ∧
    (¬ i64_as_u16 (110 - 0) ≤ cornGs.initial_end_kc.days) ∧
    (¬ i64_as_u16 (110 - 0) ≤ cornGs.development_end_kc.days) ∧
    (¬ i64_as_u16 (110 - 0) ≤ cornGs.mid_end_kc.days) ∧
    (¬ wsub cornGs.mid_end_kc.days cornGs.late_end_kc.days = 0) ∧
    (lowLateGs.determine_growth_stage (110 - lowLateGs.planting_date) = GrowthStage.Late) ∧
    ((crop_coefficient_gdd (fun x => x) 110 cornGdd none none none).2 =
        (if 0.45 < lateKcGdd cornGdd 110 then
          adjust_kc (fun x => x) (lateKcGdd cornGdd 110) ((none : Option ℚ).getD 2.0)
            (normalizeRh ((none : Option ℚ).getD 45.0)) ((none : Option ℚ).getD 1.391) * 100.0 / 100.0
        else lateKcGdd cornGdd 110 * 100.0 / 100.0)
      ∧ crop_coefficient_gs (fun x => x) 0 110 cornGs none none none =
          Except.ok (cornGs.crop_name,
            if 0.45 < lateKcGs cornGs (i64_as_u16 (110 - 0)) then
              adjust_kc (fun x => x) (lateKcGs cornGs (i64_as_u16 (110 - 0))) ((none : Option ℚ).getD 2.0)
                (normalizeRh ((none : Option ℚ).getD 45.0)) ((none : Option ℚ).getD 1.391) * 100.0 / 100.0
            else lateKcGs cornGs (i64_as_u16 (110 - 0)) * 100.0 / 100.0)
      ∧ lowLateGs.coefficient_from_date (fun x => x) 110 (some 3) none (some 3) =
          adjust_kc (fun x => x) (lateKcFromDate lowLateGs (110 - lowLateGs.planting_date))
            ((some (3:ℚ)).getD 2.0) ((none : Option ℚ).getD 45.0) ((some (3:ℚ)).getD 0.4)) :=
  ⟨by norm_num [cornGdd], by norm_num [cornGdd], by norm_num [cornGdd],
   by norm_num [i64_as_u16, cornGs, KcStage.new], by norm_num [i64_as_u16, cornGs, KcStage.new],
   by norm_num [i64_as_u16, cornGs, KcStage.new], by norm_num [wsub, cornGs, KcStage.new],
   by norm_num [CropCoefficientsGs.determine_growth_stage, lowLateGs, KcStage.new],
   claim_C5_amended (fun x => x) cornGdd 110 none none none
     (by norm_num [cornGdd]) (by norm_num [cornGdd]) (by norm_num [cornGdd])
     cornGs 0 110
     (by norm_num [i64_as_u16, cornGs, KcStage.new])
     (by norm_num [i64_as_u16, cornGs, KcStage.new])
     (by norm_num [i64_as_u16, cornGs, KcStage.new])
     (by norm_num [wsub, cornGs, KcStage.new])
     lowLateGs 110 (some 3) none (some 3)
     (by norm_num [CropCoefficientsGs.determine_growth_stage, lowLateGs, KcStage.new])⟩
